import Mathlib

/-!
Shallow embedding of `src/api/bot.py`: a Telegram moderation bot backed by a
Firestore collection of submission records.

Modelling conventions:
* The Firestore `submissions` collection is a list of `(document id, record)`
  pairs in insertion order, plus a counter used to mint fresh document ids.
* Telegram side effects (answering a callback query, sending / deleting /
  editing messages) are reified as a list of `Effect` values in the order the
  Python code awaits them.
* Handlers are pure state-passing functions.  A Python exception escaping the
  handler is modelled as `Except.error` carrying the exception name.
* `firestore.SERVER_TIMESTAMP` is modelled by passing the server-assigned
  timestamp `now` to the intake handler.
-/

namespace Telebot

/-- A submission record, as stored in and returned from Firestore.  The fields
mirror the dict built in `handle_new_submission`, plus the `doc_id` that
`save_submission_to_db` writes into the record before persisting it and that
the query functions re-attach on every read. -/
structure Submission where
  chatId : Int
  text : String
  photo : Option String
  favorite : Bool
  selected : Bool
  createdAt : Nat
  doc_id : String
  deriving DecidableEq

/-- The Firestore `submissions` collection: documents keyed by their document
id, kept in insertion order, with a counter for minting fresh ids
(`submissions_collection.document()` generates a fresh unique id). -/
structure Store where
  docs : List (String × Submission)
  nextId : Nat
  deriving DecidableEq

/-- A fresh document id, as produced by `submissions_collection.document()`. -/
def freshDocId (st : Store) : String :=
  "doc" ++ toString st.nextId

/-- A single inline keyboard button: display label plus `callback_data`. -/
structure Button where
  label : String
  callback_data : String
  deriving DecidableEq

/-- An inline keyboard: rows of buttons (`InlineKeyboardMarkup`). -/
abbrev Keyboard := List (List Button)

/-- Reified Telegram side effects, in the order the Python code awaits them. -/
inductive Effect where
  /-- `query.answer(notice)`; `none` is the bare acknowledgment `query.answer()`. -/
  | answerCallback (notice : Option String)
  /-- `context.bot.send_message(chat_id, text, reply_markup=kb)`. -/
  | sendText (chatId : Int) (text : String) (kb : Keyboard)
  /-- `context.bot.send_photo(chat_id, photo, caption, reply_markup=kb)`. -/
  | sendPhoto (chatId : Int) (photo : String) (caption : String) (kb : Keyboard)
  /-- `query.delete_message()`. -/
  | deleteMessage
  /-- `query.edit_message_reply_markup(reply_markup=kb)`. -/
  | editReplyMarkup (kb : Keyboard)
  /-- `update.message.reply_text(text)`. -/
  | replyText (text : String)
  deriving DecidableEq

/-- Filter keys accepted by `get_submissions_list` (`'favorite'`/`'selected'`;
`none` models the default `filter_key=None`). -/
inductive FilterKey where
  | favorite
  | selected
  deriving DecidableEq

/-- The `where` clause applied by `get_submissions_list` for a filter key. -/
def matchesFilter : Option FilterKey → Submission → Bool
  | none, _ => true
  | some .favorite, s => s.favorite
  | some .selected, s => s.selected

/-- Insert into a `createdAt`-descending list, keeping insertion order among
equal timestamps (ties are store-native order; the spec leaves them open). -/
def insertDesc (x : Submission) : List Submission → List Submission
  | [] => [x]
  | y :: ys => if x.createdAt > y.createdAt then x :: y :: ys else y :: insertDesc x ys

/-- `order_by('createdAt', direction=DESCENDING)`: sort newest first. -/
def sortByCreatedAtDesc : List Submission → List Submission
  | [] => []
  | x :: xs => insertDesc x (sortByCreatedAtDesc xs)

/-- Re-attach the document id to a fetched record: `{**doc.to_dict(), 'doc_id': doc.id}`. -/
def attachDocId (key : String) (d : Submission) : Submission :=
  { d with doc_id := key }

/-- `save_submission_to_db`: mint a fresh document id, write it into the
record (`submission_data['doc_id'] = doc_ref.id`), persist, and return the
record including the assigned id. -/
def save_submission_to_db (st : Store) (submission_data : Submission) :
    Store × Submission :=
  let id := freshDocId st
  let data := { submission_data with doc_id := id }
  ({ docs := st.docs ++ [(id, data)], nextId := st.nextId + 1 }, data)

/-- `get_submissions_list`: apply the optional filter, order by `createdAt`
descending, and attach `doc_id` to every returned record. -/
def get_submissions_list (st : Store) (filter_key : Option FilterKey) :
    List Submission :=
  sortByCreatedAtDesc
    (((st.docs.filter (fun kd => matchesFilter filter_key kd.2)).map
      (fun kd => attachDocId kd.1 kd.2)))

/-- A partial-field update: one named boolean field with its new value (one
key-value entry of the Python `updates` dict). -/
inductive FieldUpdate where
  | favorite (b : Bool)
  | selected (b : Bool)
  deriving DecidableEq

/-- Merge one named field into a record (one key of a Firestore `update`). -/
def applyUpdate (d : Submission) : FieldUpdate → Submission
  | .favorite b => { d with favorite := b }
  | .selected b => { d with selected := b }

/-- Merge a whole `updates` dict into a record. -/
def applyUpdates (d : Submission) (updates : List FieldUpdate) : Submission :=
  updates.foldl applyUpdate d

/-- `update_submission_status`: `submissions_collection.document(doc_id).update(updates)`,
a partial-field merge into the stored document with the given id. -/
def update_submission_status (st : Store) (doc_id : String)
    (updates : List FieldUpdate) : Store :=
  { st with
    docs := st.docs.map
      (fun kd => if kd.1 == doc_id then (kd.1, applyUpdates kd.2 updates) else kd) }

/-- `get_submission_by_doc_id`: fetch one document; on hit, attach its id. -/
def get_submission_by_doc_id (st : Store) (doc_id : String) : Option Submission :=
  (st.docs.find? (fun kd => kd.1 == doc_id)).map (fun kd => attachDocId kd.1 kd.2)

/-- `build_keyboard`: toggle row always present with state-dependent labels;
navigation row appended exactly when both `index` and `total` are given. -/
def build_keyboard (submission : Submission) (index : Option Nat)
    (total : Option Nat) : Keyboard :=
  let fav_label := if submission.favorite then "⭐ Убрать из избранного" else "⭐ В избранное"
  let sel_label := if submission.selected then "🏁 Убрать из отбора" else "🏁 В отбор"
  let doc_id := submission.doc_id
  let row : List Button :=
    [⟨fav_label, "fav:" ++ doc_id⟩, ⟨sel_label, "sel:" ++ doc_id⟩]
  match index, total with
  | some i, some t =>
      [row,
       [⟨"← Назад", "prev:" ++ toString i⟩,
        ⟨toString i ++ "/" ++ toString t, "noop"⟩,
        ⟨"Вперёд →", "next:" ++ toString i⟩]]
  | _, _ => [row]

/-- `send_submission`: photo message when the record carries a photo, else a
text message; either way with the keyboard for the given index/total. -/
def send_submission (chat_id : Int) (sub : Submission) (index : Option Nat)
    (total : Option Nat) : Effect :=
  let keyboard := build_keyboard sub index total
  match sub.photo with
  | some p => .sendPhoto chat_id p sub.text keyboard
  | none => .sendText chat_id sub.text keyboard

/-- An inbound Telegram message: `msg.chat.id`, optional `msg.text`,
optional `msg.caption`, and the (possibly empty) `msg.photo` size list,
modelled by the photo file ids (`msg.photo[-1].file_id` is the last). -/
structure IncomingMessage where
  chatId : Int
  text : Option String
  caption : Option String
  photo : List String
  deriving DecidableEq

/-- Python truthiness of an optional string (`None` and `''` are falsy). -/
def truthyStr : Option String → Bool
  | none => false
  | some s => !s.isEmpty

/-- `a or b or ''` on optional strings, as in `msg.caption or msg.text or ''`. -/
def pyOrStr (a b : Option String) : String :=
  if truthyStr a then a.getD "" else if truthyStr b then b.getD "" else ""

/-- Python `s.split(sep)` for a one-character separator, on the character
list: splitting never yields an empty group list (`''.split(':') == ['']`). -/
def splitChars (sep : Char) : List Char → List (List Char)
  | [] => [[]]
  | c :: rest =>
      let r := splitChars sep rest
      if c == sep then [] :: r
      else
        match r with
        | g :: gs => (c :: g) :: gs
        | [] => [[c]]

/-- Python `s.split(sep)` for a one-character separator. -/
def pySplit (s : String) (sep : Char) : List String :=
  (splitChars sep s.data).map (fun cs => String.mk cs)

/-- Python `s.startswith(pre)`. -/
def pyStartsWith (s pre : String) : Bool :=
  pre.data.isPrefixOf s.data

/-- Python `str.strip()` whitespace predicate (ASCII whitespace; the claims
never exercise the further Unicode space characters Python also strips). -/
def pySpace (c : Char) : Bool :=
  c == ' ' || c == '\t' || c == '\n' || c == '\r' || c == Char.ofNat 11 || c == Char.ofNat 12

/-- Python `str.strip()`: drop leading and trailing whitespace. -/
def pyStrip (s : String) : String :=
  String.mk (((s.data.dropWhile pySpace).reverse.dropWhile pySpace).reverse)

/-- Python `int(s)`: optional surrounding whitespace, optional sign, one or
more decimal digits (digit-grouping underscores are not modelled; no claim
exercises them).  `none` models `ValueError`. -/
def pyInt (s : String) : Option Int :=
  let t := (pyStrip s).data
  let digits := match t with
    | c :: rest => if c == '+' || c == '-' then rest else t
    | [] => t
  if digits.isEmpty || !digits.all Char.isDigit then none
  else
    let mag : Nat := digits.foldl (fun acc d => acc * 10 + (d.toNat - 48)) 0
    match t with
    | c :: _ => if c == '-' then some (-(mag : Int)) else some (mag : Int)
    | [] => none

/-- `handle_new_submission`: accept an inbound message as a new submission
iff its caption/text starts with the marker glyph or it carries a photo;
persist with both flags false and normalized text, then push the rendered
record to the manager without list context. -/
def handle_new_submission (managerChatId : Int) (st : Store) (now : Nat)
    (msg : IncomingMessage) : Store × List Effect :=
  let content := pyOrStr msg.caption msg.text
  let is_submission := pyStartsWith content "🎄" || !msg.photo.isEmpty
  if !is_submission then (st, [])
  else
    let photo_file_id := msg.photo.getLast?
    let stripped := pyStrip content
    let submission : Submission :=
      { chatId := msg.chatId
        text := if stripped.isEmpty then "📷 Фото без описания" else stripped
        photo := photo_file_id
        favorite := false
        selected := false
        createdAt := now
        doc_id := "" }
    let saved := save_submission_to_db st submission
    (saved.1, [send_submission managerChatId saved.2 none none])

/-- `handle_manager_hears`: manager menu press; fetch the selected filtered
list; reply "none yet" when empty, else send the first record with
`index = 1` and the list length. -/
def handle_manager_hears (managerChatId : Int) (st : Store) (chatId : Int)
    (text : String) : List Effect :=
  if chatId != managerChatId then []
  else
    let filter_choice : Option (Option FilterKey) :=
      if text == "📋 Все заявки" then some none
      else if text == "⭐ Избранные" then some (some .favorite)
      else if text == "🏁 Отобранные" then some (some .selected)
      else none
    match filter_choice with
    | none => []
    | some filter_key =>
        match get_submissions_list st filter_key with
        | [] => [.replyText ("❌ " ++ text ++ " пока нет")]
        | sub :: rest =>
            [send_submission chatId sub (some 1) (some (rest.length + 1))]

/-- The directional-step index arithmetic of `handle_callback_query`:
`(current_index + 1) % total` for next, `(current_index - 1 + total) % total`
for prev (Python `%` on a positive divisor agrees with `Int.emod`). -/
def nav_new_index (isNext : Bool) (current_index : Int) (total : Nat) : Int :=
  if isNext then (current_index + 1) % (total : Int)
  else (current_index - 1 + (total : Int)) % (total : Int)

/-- The body of the `next`/`prev` branch of `handle_callback_query`, after the
query type is known.  `isNext` distinguishes `next` from `prev`. -/
def handle_nav (st : Store) (chatId : Int) (parts : List String)
    (isNext : Bool) : Except String (Store × List Effect) :=
  let submissions := get_submissions_list st none
  match parts[1]? with
  | none => .error "IndexError"
  | some s =>
      match pyInt s with
      | none => .error "ValueError"
      | some current_index_one_based =>
          let current_index := current_index_one_based - 1
          let total := submissions.length
          if total = 0 then
            .ok (st, [.answerCallback none, .answerCallback (some "Список пуст")])
          else
            let new_index := nav_new_index isNext current_index total
            match submissions[new_index.toNat]? with
            | none => .error "IndexError"
            | some sub =>
                .ok (st,
                  [.answerCallback none, .deleteMessage,
                   send_submission chatId sub (some (new_index.toNat + 1)) (some total)])

/-- The one-entry `updates` dict the toggle branch builds: the named flag
mapped to the negation of its currently stored value. -/
def toggle_updates (isFav : Bool) (sub : Submission) : List FieldUpdate :=
  if isFav then [.favorite (!sub.favorite)] else [.selected (!sub.selected)]

/-- The body of the `fav`/`sel` branch of `handle_callback_query`.
`isFav` distinguishes `fav` from `sel`. -/
def handle_toggle (st : Store) (parts : List String) (isFav : Bool) :
    Except String (Store × List Effect) :=
  match parts[1]? with
  | none => .error "IndexError"
  | some doc_id =>
      match get_submission_by_doc_id st doc_id with
      | none => .ok (st, [.answerCallback none, .answerCallback (some "Заявка не найдена")])
      | some sub =>
          let updates := toggle_updates isFav sub
          if updates.isEmpty then
            .ok (st, [.answerCallback none, .answerCallback (some "Нечего обновлять")])
          else
            let st1 := update_submission_status st doc_id updates
            let sub1 := applyUpdates sub updates
            let submissions := get_submissions_list st1 none
            let total := submissions.length
            match submissions.findIdx? (fun s => s.doc_id == doc_id) with
            | some index =>
                .ok (st1,
                  [.answerCallback none,
                   .editReplyMarkup (build_keyboard sub1 (some (index + 1)) (some total)),
                   .answerCallback (some "✅ Сохранено")])
            | none =>
                .ok (st1,
                  [.answerCallback none,
                   .answerCallback (some "⚠️ Не удалось обновить")])

/-- `handle_callback_query`: answer the query, split the payload on `':'`,
and dispatch on the first field (`noop` / `next` / `prev` / `fav` / `sel`;
anything else falls through with only the bare acknowledgment). -/
def handle_callback_query (st : Store) (chatId : Int) (data : String) :
    Except String (Store × List Effect) :=
  let parts := pySplit data ':'
  let query_type := parts.headD ""
  if query_type == "noop" then .ok (st, [.answerCallback none])
  else if query_type == "next" then handle_nav st chatId parts true
  else if query_type == "prev" then handle_nav st chatId parts false
  else if query_type == "fav" then handle_toggle st parts true
  else if query_type == "sel" then handle_toggle st parts false
  else .ok (st, [.answerCallback none])

/-- The message routing set up in `init_application`: every message from a
chat other than the manager's goes to `handle_new_submission`; manager
messages matching one of the three menu labels go to `handle_manager_hears`;
other manager messages match no handler. -/
def dispatch_message (managerChatId : Int) (st : Store) (now : Nat)
    (msg : IncomingMessage) : Store × List Effect :=
  if msg.chatId != managerChatId then
    handle_new_submission managerChatId st now msg
  else
    let text := msg.text.getD ""
    if text == "📋 Все заявки" || text == "⭐ Избранные" || text == "🏁 Отобранные" then
      (st, handle_manager_hears managerChatId st msg.chatId text)
    else
      (st, [])

/-! ## Helper lemmas -/

/-- Dispatch: a payload whose first `':'` field is `next`/`prev` reaches
`handle_nav` with the split payload. -/
lemma callback_eq_nav (st : Store) (chatId : Int) (data : String) (isNext : Bool)
    (h : (pySplit data ':').headD "" = (if isNext then "next" else "prev")) :
    handle_callback_query st chatId data = handle_nav st chatId (pySplit data ':') isNext := by
  rw [List.headD_eq_head?_getD] at h
  cases isNext <;> simp only [if_pos, if_neg, Bool.false_eq_true] at h <;>
    simp [handle_callback_query, h]

/-- Dispatch: a payload whose first `':'` field is `fav`/`sel` reaches
`handle_toggle` with the split payload. -/
lemma callback_eq_toggle (st : Store) (chatId : Int) (data : String) (isFav : Bool)
    (h : (pySplit data ':').headD "" = (if isFav then "fav" else "sel")) :
    handle_callback_query st chatId data = handle_toggle st (pySplit data ':') isFav := by
  rw [List.headD_eq_head?_getD] at h
  cases isFav <;> simp only [if_pos, if_neg, Bool.false_eq_true] at h <;>
    simp [handle_callback_query, h]

/-! ## Claims -/

/-- C8: the rendered keyboard's two toggle labels are exactly determined by the
current `favorite`/`selected` booleans (each label names the inverse action),
and the navigation row (previous control, read-only `index/total` indicator,
next control) is appended iff both `index` and `total` are provided. -/
theorem C8_keyboard_labels_and_nav_row (sub : Submission) (index total : Option Nat) :
    (∀ i t, index = some i → total = some t →
      build_keyboard sub index total =
        [[⟨if sub.favorite then "⭐ Убрать из избранного" else "⭐ В избранное",
             "fav:" ++ sub.doc_id⟩,
          ⟨if sub.selected then "🏁 Убрать из отбора" else "🏁 В отбор",
             "sel:" ++ sub.doc_id⟩],
         [⟨"← Назад", "prev:" ++ toString i⟩,
          ⟨toString i ++ "/" ++ toString t, "noop"⟩,
          ⟨"Вперёд →", "next:" ++ toString i⟩]]) ∧
    ((index = none ∨ total = none) →
      build_keyboard sub index total =
        [[⟨if sub.favorite then "⭐ Убрать из избранного" else "⭐ В избранное",
             "fav:" ++ sub.doc_id⟩,
          ⟨if sub.selected then "🏁 Убрать из отбора" else "🏁 В отбор",
             "sel:" ++ sub.doc_id⟩]]) := by
  constructor
  · intro i t hi ht
    subst hi; subst ht
    rfl
  · rintro (h | h)
    · subst h; cases total <;> rfl
    · subst h; cases index <;> rfl

/-- C8 witness: concrete keyboards with and without the navigation row. -/
theorem C8_keyboard_labels_and_nav_row_witness :
    build_keyboard ⟨7, "hi", none, true, false, 3, "a"⟩ (some 2) (some 5) =
      [[⟨"⭐ Убрать из избранного", "fav:a"⟩, ⟨"🏁 В отбор", "sel:a"⟩],
       [⟨"← Назад", "prev:2"⟩, ⟨"2/5", "noop"⟩, ⟨"Вперёд →", "next:2"⟩]] ∧
    build_keyboard ⟨7, "hi", none, true, false, 3, "a"⟩ none (some 5) =
      [[⟨"⭐ Убрать из избранного", "fav:a"⟩, ⟨"🏁 В отбор", "sel:a"⟩]] :=
  ⟨(C8_keyboard_labels_and_nav_row ⟨7, "hi", none, true, false, 3, "a"⟩
      (some 2) (some 5)).1 2 5 rfl rfl,
   (C8_keyboard_labels_and_nav_row ⟨7, "hi", none, true, false, 3, "a"⟩
      none (some 5)).2 (Or.inl rfl)⟩

/-- The 1-based directional step the `next` branch performs, as a function on
1-based positions: position `p` with list length `N` moves to
`nav_new_index true (p - 1) N + 1`. -/
def next_step (N p : Nat) : Nat :=
  (nav_new_index true ((p : Int) - 1) N).toNat + 1

lemma next_step_eq (N p : Nat) (_hp : 1 ≤ p) : next_step N p = p % N + 1 := by
  unfold next_step nav_new_index
  have h1 : (p : Int) - 1 + 1 = (p : Int) := by omega
  simp only [if_pos rfl, h1]
  rfl

lemma next_step_iter (N p : Nat) (hp : 1 ≤ p) (hpN : p ≤ N) :
    ∀ k : Nat, (next_step N)^[k] p = (p - 1 + k) % N + 1 := by
  intro k
  induction k with
  | zero =>
      simp only [Function.iterate_zero, id_eq, Nat.add_zero]
      rw [Nat.mod_eq_of_lt (by omega : p - 1 < N)]
      omega
  | succ k ih =>
      rw [Function.iterate_succ_apply', ih,
        next_step_eq N ((p - 1 + k) % N + 1) (Nat.le_add_left 1 _),
        Nat.mod_add_mod, Nat.add_assoc]

/-- C7: for every list length `N ≥ 1` and 1-based position `1 ≤ p ≤ N`,
applying the directional step `next` `N` times returns to `p` (the step is a
cyclic permutation of positions `1..N`). -/
theorem C7_next_cyclic (N p : Nat) (hp : 1 ≤ p) (hpN : p ≤ N) :
    (next_step N)^[N] p = p := by
  rw [next_step_iter N p hp hpN N, Nat.add_mod_right,
    Nat.mod_eq_of_lt (by omega : p - 1 < N)]
  omega

/-- C7 witness: with `N = 5`, five `next` steps from position 3 return to 3. -/
theorem C7_next_cyclic_witness : (next_step 5)^[5] 3 = 3 :=
  C7_next_cyclic 5 3 (by decide) (by decide)

/-- The new 0-based index as the spec words it:
`newIndex = (p - 1 + delta + total) % total`. -/
def spec_nav_index (p delta : Int) (total : Nat) : Int :=
  (p - 1 + delta + (total : Int)) % (total : Int)

/-- The index arithmetic the code performs agrees with the spec's formula. -/
lemma nav_eq_spec (isNext : Bool) (p : Int) (t : Nat) :
    nav_new_index isNext (p - 1) t = spec_nav_index p (if isNext then 1 else -1) t := by
  cases isNext
  · simp only [nav_new_index, spec_nav_index, Bool.false_eq_true, if_neg, if_false]
    have h : p - 1 - 1 + (t : Int) = p - 1 + -1 + (t : Int) := by ring
    rw [h]
  · simp only [nav_new_index, spec_nav_index, if_pos rfl, if_true]
    have h : p - 1 + 1 + (t : Int) = p - 1 + 1 + (t : Int) := rfl
    calc (p - 1 + 1) % (t : Int)
        = (p - 1 + 1 + (t : Int)) % (t : Int) := by simp [Int.add_emod]
      _ = spec_nav_index p 1 t := rfl

/-- C1: a directional press carrying 1-based position `p` re-fetches the
unfiltered list, computes the 0-based index `(p - 1 + delta + total) % total`
(`delta = +1` for next, `-1` for previous, `total` the fetched length),
deletes the old displayed message, and sends the record at the new index
rendered with position `new index + 1` and the fetched total. -/
theorem C1_directional_step (st : Store) (chatId : Int) (data s : String)
    (p : Int) (isNext : Bool) (sub : Submission)
    (hsplit : pySplit data ':' = [(if isNext then "next" else "prev"), s])
    (hp : pyInt s = some p) (_hp1 : 1 ≤ p)
    (hsub : (get_submissions_list st none)[
        (spec_nav_index p (if isNext then 1 else -1)
          (get_submissions_list st none).length).toNat]? = some sub) :
    handle_callback_query st chatId data =
      .ok (st, [.answerCallback none, .deleteMessage,
        send_submission chatId sub
          (some ((spec_nav_index p (if isNext then 1 else -1)
            (get_submissions_list st none).length).toNat + 1))
          (some (get_submissions_list st none).length)]) := by
  rw [callback_eq_nav st chatId data isNext (by rw [hsplit]; rfl), hsplit]
  have hlen : (get_submissions_list st none).length ≠ 0 := by
    intro h0
    rw [List.length_eq_zero.mp h0] at hsub
    simp at hsub
  unfold handle_nav
  simp only [List.getElem?_cons_succ, List.getElem?_cons_zero, Option.some.injEq, hp,
    nav_eq_spec, hsub, if_neg hlen]

/-- A concrete store with two submissions, used by the witnesses below. -/
def exSub1 : Submission := ⟨100, "🎄 wish one", none, false, false, 5, "a"⟩

/-- Second concrete submission (newer, photo-bearing, favorited). -/
def exSub2 : Submission := ⟨101, "🎄 wish two", some "ph", true, false, 7, "b"⟩

/-- Concrete example store holding `exSub1` and `exSub2`. -/
def exStore : Store := ⟨[("a", exSub1), ("b", exSub2)], 2⟩

/-- C1 witness: pressing `next` from position 1 of the two-element example
store deletes the message and sends the record at position 2 of 2. -/
theorem C1_directional_step_witness :
    handle_callback_query exStore 999 "next:1" =
      .ok (exStore, [.answerCallback none, .deleteMessage,
        send_submission 999 exSub1 (some 2) (some 2)]) :=
  C1_directional_step exStore 999 "next:1" "1" 1 true exSub1 rfl rfl (by decide) rfl

/-- C5: a toggle press whose record identity does not resolve emits the
"not found" acknowledgment, writes nothing, edits nothing, and does not
raise. -/
theorem C5_toggle_not_found (st : Store) (chatId : Int) (data doc_id : String)
    (isFav : Bool)
    (hsplit : pySplit data ':' = [(if isFav then "fav" else "sel"), doc_id])
    (habs : get_submission_by_doc_id st doc_id = none) :
    handle_callback_query st chatId data =
      .ok (st, [.answerCallback none, .answerCallback (some "Заявка не найдена")]) := by
  rw [callback_eq_toggle st chatId data isFav (by rw [hsplit]; rfl), hsplit]
  unfold handle_toggle
  simp [habs]

/-- C5 witness: toggling `fav` on an id absent from the example store. -/
theorem C5_toggle_not_found_witness :
    handle_callback_query exStore 999 "fav:zzz" =
      .ok (exStore, [.answerCallback none, .answerCallback (some "Заявка не найдена")]) :=
  C5_toggle_not_found exStore 999 "fav:zzz" "zzz" true rfl rfl

/-- C3 counterexample: the payload `"next:abc"` is malformed (non-integer where
a position is expected), yet the handler raises (`ValueError` from `int()`)
instead of completing without raising. -/
theorem C3_counterexample :
    handle_callback_query exStore 999 "next:abc" = .error "ValueError" := rfl

/-- C3 amended: a control payload with an unrecognized kind is silently
ignored (state unchanged, only the generic acknowledgment); but a payload
with a recognized kind and a missing second field makes the handler raise
`IndexError`, and a directional payload with a non-integer position makes it
raise `ValueError` — in each case with no state change and no user-visible
feedback beyond the generic acknowledgment. -/
theorem C3_malformed_payloads (st : Store) (chatId : Int) (data : String) :
    ((pySplit data ':').headD "" ∉ (["noop", "next", "prev", "fav", "sel"] : List String) →
      handle_callback_query st chatId data = .ok (st, [.answerCallback none])) ∧
    (∀ qt, pySplit data ':' = [qt] →
      (qt = "next" ∨ qt = "prev" ∨ qt = "fav" ∨ qt = "sel") →
      handle_callback_query st chatId data = .error "IndexError") ∧
    (∀ qt s, pySplit data ':' = [qt, s] → (qt = "next" ∨ qt = "prev") →
      pyInt s = none →
      handle_callback_query st chatId data = .error "ValueError") := by
  refine ⟨?_, ?_, ?_⟩
  · intro h
    simp only [List.mem_cons, List.not_mem_nil, or_false, not_or] at h
    obtain ⟨h1, h2, h3, h4, h5⟩ := h
    simp [handle_callback_query, List.headD_eq_head?_getD] at h1 h2 h3 h4 h5 ⊢
    simp [h1, h2, h3, h4, h5]
  · intro qt hsplit hq
    rcases hq with h | h | h | h <;> subst h
    · rw [callback_eq_nav st chatId data true (by rw [hsplit]; rfl), hsplit]; rfl
    · rw [callback_eq_nav st chatId data false (by rw [hsplit]; rfl), hsplit]; rfl
    · rw [callback_eq_toggle st chatId data true (by rw [hsplit]; rfl), hsplit]; rfl
    · rw [callback_eq_toggle st chatId data false (by rw [hsplit]; rfl), hsplit]; rfl
  · intro qt s hsplit hq hps
    rcases hq with h | h <;> subst h
    · rw [callback_eq_nav st chatId data true (by rw [hsplit]; rfl), hsplit]
      unfold handle_nav
      simp [hps]
    · rw [callback_eq_nav st chatId data false (by rw [hsplit]; rfl), hsplit]
      unfold handle_nav
      simp [hps]

/-- C3 witness: the three malformed shapes at concrete inputs. -/
theorem C3_malformed_payloads_witness :
    handle_callback_query exStore 0 "junk:1" = .ok (exStore, [.answerCallback none]) ∧
    handle_callback_query exStore 0 "prev" = .error "IndexError" ∧
    handle_callback_query exStore 0 "next:abc" = .error "ValueError" :=
  ⟨(C3_malformed_payloads exStore 0 "junk:1").1 (by decide),
   (C3_malformed_payloads exStore 0 "prev").2.1 "prev" rfl (Or.inr (Or.inl rfl)),
   (C3_malformed_payloads exStore 0 "next:abc").2.2 "next" "abc" rfl (Or.inl rfl) rfl⟩

/-- Evaluation of the toggle branch on an existing record: persist the
flipped flag, re-fetch the unfiltered list from the updated store, and branch
on the identity scan. -/
lemma handle_toggle_eq (st : Store) (q doc_id : String) (isFav : Bool)
    (sub : Submission)
    (hsub : get_submission_by_doc_id st doc_id = some sub) :
    handle_toggle st [q, doc_id] isFav =
      (let st1 := update_submission_status st doc_id (toggle_updates isFav sub)
       let submissions := get_submissions_list st1 none
       match submissions.findIdx? (fun s => s.doc_id == doc_id) with
       | some index =>
           .ok (st1, [.answerCallback none,
             .editReplyMarkup
               (build_keyboard (applyUpdates sub (toggle_updates isFav sub))
                 (some (index + 1)) (some submissions.length)),
             .answerCallback (some "✅ Сохранено")])
       | none =>
           .ok (st1, [.answerCallback none,
             .answerCallback (some "⚠️ Не удалось обновить")])) := by
  unfold handle_toggle
  simp only [List.getElem?_cons_succ, List.getElem?_cons_zero, hsub]
  cases isFav <;> rfl

/-- C2: a toggle press on an existing record persists the flipped flag, then
re-fetches the unfiltered `createdAt`-descending list and scans for the
record's identity: if found at scan index `i`, the keyboard is edited in
place with position `i + 1` and the fetched total, and "saved" is emitted;
if not found, "could not update" is emitted and nothing is edited. -/
theorem C2_toggle_reanchor (st : Store) (chatId : Int) (data doc_id : String)
    (isFav : Bool) (sub : Submission)
    (hsplit : pySplit data ':' = [(if isFav then "fav" else "sel"), doc_id])
    (hsub : get_submission_by_doc_id st doc_id = some sub) :
    (∀ i, (get_submissions_list
          (update_submission_status st doc_id (toggle_updates isFav sub)) none).findIdx?
          (fun s => s.doc_id == doc_id) = some i →
      handle_callback_query st chatId data =
        .ok (update_submission_status st doc_id (toggle_updates isFav sub),
          [.answerCallback none,
           .editReplyMarkup
             (build_keyboard (applyUpdates sub (toggle_updates isFav sub))
               (some (i + 1))
               (some (get_submissions_list
                 (update_submission_status st doc_id (toggle_updates isFav sub)) none).length)),
           .answerCallback (some "✅ Сохранено")])) ∧
    ((get_submissions_list
          (update_submission_status st doc_id (toggle_updates isFav sub)) none).findIdx?
          (fun s => s.doc_id == doc_id) = none →
      handle_callback_query st chatId data =
        .ok (update_submission_status st doc_id (toggle_updates isFav sub),
          [.answerCallback none,
           .answerCallback (some "⚠️ Не удалось обновить")])) := by
  rw [callback_eq_toggle st chatId data isFav (by rw [hsplit]; rfl), hsplit,
    handle_toggle_eq st _ doc_id isFav sub hsub]
  constructor
  · intro i hi
    simp only [hi]
  · intro hn
    simp only [hn]

/-- C2 witness: toggling `fav` on record `a` of the example store edits the
keyboard in place at the record's rank 2 of 2 and acknowledges "saved". -/
theorem C2_toggle_reanchor_witness :
    handle_callback_query exStore 999 "fav:a" =
      .ok (update_submission_status exStore "a" (toggle_updates true exSub1),
        [.answerCallback none,
         .editReplyMarkup
           (build_keyboard (applyUpdates exSub1 (toggle_updates true exSub1))
             (some 2)
             (some (get_submissions_list
               (update_submission_status exStore "a" (toggle_updates true exSub1)) none).length)),
         .answerCallback (some "✅ Сохранено")]) :=
  (C2_toggle_reanchor exStore 999 "fav:a" "a" true exSub1 rfl rfl).1 1 rfl

/-- `find?` of the key commutes with the key-preserving map that
`update_submission_status` applies. -/
lemma find_update (id : String) (u : List FieldUpdate) :
    ∀ l : List (String × Submission),
      (l.map (fun kd => if kd.1 == id then (kd.1, applyUpdates kd.2 u) else kd)).find?
          (fun kd => kd.1 == id) =
        (l.find? (fun kd => kd.1 == id)).map
          (fun kd => (kd.1, applyUpdates kd.2 u))
  | [] => rfl
  | kd :: rest => by
      by_cases h : kd.1 = id
      · subst h
        simp [List.find?_cons]
      · have hb : (kd.1 == id) = false := by simpa using h
        simp only [List.map_cons, List.find?_cons, hb, Bool.false_eq_true, if_false, cond_false]
        exact find_update id u rest

lemma attach_applyUpdate (k : String) (d : Submission) (x : FieldUpdate) :
    attachDocId k (applyUpdate d x) = applyUpdate (attachDocId k d) x := by
  cases x <;> rfl

lemma attach_applyUpdates (k : String) (u : List FieldUpdate) :
    ∀ d : Submission,
      attachDocId k (applyUpdates d u) = applyUpdates (attachDocId k d) u := by
  induction u with
  | nil => intro d; rfl
  | cons x xs ih =>
      intro d
      show attachDocId k (applyUpdates (applyUpdate d x) xs) = _
      rw [ih, attach_applyUpdate]
      rfl

/-- Reading back the updated document observes exactly the merged fields. -/
lemma get_update_same (st : Store) (id : String) (u : List FieldUpdate) :
    get_submission_by_doc_id (update_submission_status st id u) id =
      (get_submission_by_doc_id st id).map (fun s => applyUpdates s u) := by
  unfold get_submission_by_doc_id update_submission_status
  rw [find_update]
  cases h : st.docs.find? (fun kd => kd.1 == id) with
  | none => rfl
  | some kd => simp [attach_applyUpdates]

/-- A toggle press on an existing record returns `ok` with the store updated
by the flipped flag (whichever way the identity scan goes). -/
lemma toggle_ok (st : Store) (chatId : Int) (data doc_id : String)
    (isFav : Bool) (sub : Submission)
    (hsplit : pySplit data ':' = [(if isFav then "fav" else "sel"), doc_id])
    (hsub : get_submission_by_doc_id st doc_id = some sub) :
    ∃ e, handle_callback_query st chatId data =
      .ok (update_submission_status st doc_id (toggle_updates isFav sub), e) := by
  rw [callback_eq_toggle st chatId data isFav (by rw [hsplit]; rfl), hsplit,
    handle_toggle_eq st _ doc_id isFav sub hsub]
  cases hidx : (get_submissions_list
      (update_submission_status st doc_id (toggle_updates isFav sub)) none).findIdx?
      (fun s => s.doc_id == doc_id) with
  | none =>
      simp only [hidx]
      exact ⟨_, rfl⟩
  | some i =>
      simp only [hidx]
      exact ⟨_, rfl⟩

/-- Applying the code's toggle twice restores the record (flag negated, then
negated back; nothing else touched). -/
lemma toggle_updates_twice (isFav : Bool) (sub : Submission) :
    applyUpdates (applyUpdates sub (toggle_updates isFav sub))
      (toggle_updates isFav (applyUpdates sub (toggle_updates isFav sub))) = sub := by
  cases sub
  cases isFav <;> simp [toggle_updates, applyUpdates, applyUpdate]

/-- C6: toggling the same flag twice in succession (no interleaved writes)
returns the record's boolean to its original value; each press persists the
negation of the currently stored value. -/
theorem C6_toggle_twice_restores (st : Store) (chatId : Int)
    (data doc_id : String) (isFav : Bool) (sub : Submission)
    (hsplit : pySplit data ':' = [(if isFav then "fav" else "sel"), doc_id])
    (hsub : get_submission_by_doc_id st doc_id = some sub) :
    ∃ st1 e1 st2 e2,
      handle_callback_query st chatId data = .ok (st1, e1) ∧
      get_submission_by_doc_id st1 doc_id =
        some (applyUpdates sub (toggle_updates isFav sub)) ∧
      (if isFav then
        (applyUpdates sub (toggle_updates isFav sub)).favorite = !sub.favorite
       else
        (applyUpdates sub (toggle_updates isFav sub)).selected = !sub.selected) ∧
      handle_callback_query st1 chatId data = .ok (st2, e2) ∧
      get_submission_by_doc_id st2 doc_id = some sub := by
  obtain ⟨e1, he1⟩ := toggle_ok st chatId data doc_id isFav sub hsplit hsub
  have hget1 : get_submission_by_doc_id
      (update_submission_status st doc_id (toggle_updates isFav sub)) doc_id =
      some (applyUpdates sub (toggle_updates isFav sub)) := by
    rw [get_update_same, hsub]
    rfl
  obtain ⟨e2, he2⟩ := toggle_ok
    (update_submission_status st doc_id (toggle_updates isFav sub)) chatId data doc_id
    isFav (applyUpdates sub (toggle_updates isFav sub)) hsplit hget1
  refine ⟨_, e1, _, e2, he1, hget1, ?_, he2, ?_⟩
  · cases isFav <;> simp [toggle_updates, applyUpdates, applyUpdate]
  · rw [get_update_same, hget1]
    simp [toggle_updates_twice]

/-- C6 witness: toggling `sel` on record `b` twice restores the original
record in the store. -/
theorem C6_toggle_twice_restores_witness :
    ∃ st1 e1 st2 e2,
      handle_callback_query exStore 999 "sel:b" = .ok (st1, e1) ∧
      get_submission_by_doc_id st1 "b" =
        some (applyUpdates exSub2 (toggle_updates false exSub2)) ∧
      (applyUpdates exSub2 (toggle_updates false exSub2)).selected = !exSub2.selected ∧
      handle_callback_query st1 999 "sel:b" = .ok (st2, e2) ∧
      get_submission_by_doc_id st2 "b" = some exSub2 :=
  C6_toggle_twice_restores exStore 999 "sel:b" "b" false exSub2 rfl rfl

/-- All fields of `e` other than `favorite` agree with `d`. -/
def eqExceptFavorite (d e : Submission) : Prop :=
  e.chatId = d.chatId ∧ e.text = d.text ∧ e.photo = d.photo ∧
  e.selected = d.selected ∧ e.createdAt = d.createdAt ∧ e.doc_id = d.doc_id

/-- All fields of `e` other than `selected` agree with `d`. -/
def eqExceptSelected (d e : Submission) : Prop :=
  e.chatId = d.chatId ∧ e.text = d.text ∧ e.photo = d.photo ∧
  e.favorite = d.favorite ∧ e.createdAt = d.createdAt ∧ e.doc_id = d.doc_id

/-- `e` is `d` with exactly the one named boolean field written. -/
def updateFrame (u : FieldUpdate) (d e : Submission) : Prop :=
  match u with
  | .favorite b => e.favorite = b ∧ eqExceptFavorite d e
  | .selected b => e.selected = b ∧ eqExceptSelected d e

/-- C9: the toggle branch persists a one-entry partial-field merge: the
store keeps its shape, documents with other ids are untouched, and the
matching document changes in exactly the named boolean field. -/
theorem C9_single_field_merge (st : Store) (doc_id : String) (u : FieldUpdate)
    (i : Nat) :
    (update_submission_status st doc_id [u]).docs.length = st.docs.length ∧
    ∀ k d, st.docs[i]? = some (k, d) →
      (k ≠ doc_id →
        (update_submission_status st doc_id [u]).docs[i]? = some (k, d)) ∧
      (k = doc_id →
        ∃ e, (update_submission_status st doc_id [u]).docs[i]? = some (k, e) ∧
          updateFrame u d e) := by
  constructor
  · simp [update_submission_status]
  · intro k d hkd
    constructor
    · intro hne
      unfold update_submission_status
      simp only [List.getElem?_map, hkd, Option.map_some', hne, beq_iff_eq, if_false,
        if_neg hne]
    · intro heq
      subst heq
      refine ⟨applyUpdates d [u], ?_, ?_⟩
      · unfold update_submission_status
        simp [List.getElem?_map, hkd]
      · cases u <;> cases d <;>
          simp [applyUpdates, applyUpdate, updateFrame, eqExceptFavorite, eqExceptSelected]

/-- C9 witness: flipping `favorite` of record `a` in the example store keeps
the store shape and changes only that field of that record. -/
theorem C9_single_field_merge_witness :
    (update_submission_status exStore "a" [.favorite true]).docs.length =
      exStore.docs.length ∧
    ∃ e, (update_submission_status exStore "a" [.favorite true]).docs[0]? =
        some ("a", e) ∧ updateFrame (.favorite true) exSub1 e :=
  ⟨(C9_single_field_merge exStore "a" (.favorite true) 0).1,
   ((C9_single_field_merge exStore "a" (.favorite true) 0).2 "a" exSub1 rfl).2 rfl⟩

lemma mem_insertDesc (x y : Submission) (l : List Submission) :
    x ∈ insertDesc y l ↔ x = y ∨ x ∈ l := by
  induction l with
  | nil => simp [insertDesc]
  | cons z zs ih =>
      unfold insertDesc
      by_cases h : y.createdAt > z.createdAt
      · simp [h]
      · simp only [h, if_false, List.mem_cons, ih]
        tauto

lemma mem_sortDesc (x : Submission) (l : List Submission) :
    x ∈ sortByCreatedAtDesc l ↔ x ∈ l := by
  induction l with
  | nil => simp [sortByCreatedAtDesc]
  | cons z zs ih => simp [sortByCreatedAtDesc, mem_insertDesc, ih]

/-- C10: every record the adapter layer hands out carries `doc_id` equal to
the store key under which it is persisted: `save_submission_to_db` writes the
minted id into the record before persisting, and both query functions attach
the document id to every hit. -/
theorem C10_doc_id_attached (st : Store) (data : Submission)
    (fk : Option FilterKey) (id : String) :
    ((save_submission_to_db st data).2.doc_id = freshDocId st ∧
      (save_submission_to_db st data).1.docs =
        st.docs ++ [((save_submission_to_db st data).2.doc_id,
          (save_submission_to_db st data).2)]) ∧
    (∀ sub ∈ get_submissions_list st fk,
      ∃ kd ∈ st.docs, kd.1 = sub.doc_id ∧ sub = attachDocId kd.1 kd.2) ∧
    (∀ sub, get_submission_by_doc_id st id = some sub →
      sub.doc_id = id ∧ ∃ kd ∈ st.docs, kd.1 = id ∧ sub = attachDocId kd.1 kd.2) := by
  refine ⟨⟨rfl, rfl⟩, ?_, ?_⟩
  · intro sub hsub
    unfold get_submissions_list at hsub
    rw [mem_sortDesc] at hsub
    obtain ⟨kd, hkd, hattach⟩ := List.mem_map.mp hsub
    have hmem := (List.mem_filter.mp hkd).1
    refine ⟨kd, hmem, ?_, hattach.symm⟩
    rw [← hattach]
    rfl
  · intro sub hget
    unfold get_submission_by_doc_id at hget
    cases hf : st.docs.find? (fun kd => kd.1 == id) with
    | none =>
        rw [hf] at hget
        simp at hget
    | some kd =>
        rw [hf] at hget
        simp only [Option.map_some', Option.some.injEq] at hget
        have hid : kd.1 = id := by simpa using List.find?_some hf
        have hmem := List.mem_of_find?_eq_some hf
        subst hget
        exact ⟨hid, kd, hmem, hid, rfl⟩

/-- C10 witness: the concrete store hands out records whose `doc_id` is their
store key. -/
theorem C10_doc_id_attached_witness :
    (save_submission_to_db exStore exSub1).2.doc_id = freshDocId exStore ∧
    (∃ kd ∈ exStore.docs, kd.1 = exSub2.doc_id ∧ exSub2 = attachDocId kd.1 kd.2) ∧
    exSub2.doc_id = "b" :=
  ⟨(C10_doc_id_attached exStore exSub1 none "b").1.1,
   (C10_doc_id_attached exStore exSub1 none "b").2.1 exSub2 (by decide),
   ((C10_doc_id_attached exStore exSub1 none "b").2.2 exSub2 rfl).1⟩

/-- The record `handle_new_submission` persists on acceptance, as finally
stored (with the minted document id written in by `save_submission_to_db`). -/
def intake_record (st : Store) (now : Nat) (msg : IncomingMessage) : Submission :=
  let content := pyOrStr msg.caption msg.text
  let stripped := pyStrip content
  { chatId := msg.chatId
    text := if stripped.isEmpty then "📷 Фото без описания" else stripped
    photo := msg.photo.getLast?
    favorite := false
    selected := false
    createdAt := now
    doc_id := freshDocId st }

/-- C4: a message from a non-manager chat is accepted iff its caption/text
starts with 🎄 or it carries a photo; on acceptance the stored record has
both flags false and the trimmed text (placeholder when empty), and the
rendered record goes to the manager with no navigation row; otherwise the
message is ignored with no effect. -/
theorem C4_intake (managerChatId : Int) (st : Store) (now : Nat)
    (msg : IncomingMessage) (hchat : msg.chatId ≠ managerChatId) :
    ((pyStartsWith (pyOrStr msg.caption msg.text) "🎄" || !msg.photo.isEmpty) = true ↔
      (pyStartsWith (pyOrStr msg.caption msg.text) "🎄" = true ∨ msg.photo ≠ [])) ∧
    ((pyStartsWith (pyOrStr msg.caption msg.text) "🎄" || !msg.photo.isEmpty) = false →
      dispatch_message managerChatId st now msg = (st, [])) ∧
    ((pyStartsWith (pyOrStr msg.caption msg.text) "🎄" || !msg.photo.isEmpty) = true →
      dispatch_message managerChatId st now msg =
        ({ docs := st.docs ++ [(freshDocId st, intake_record st now msg)],
           nextId := st.nextId + 1 },
         [send_submission managerChatId (intake_record st now msg) none none]) ∧
      (intake_record st now msg).favorite = false ∧
      (intake_record st now msg).selected = false ∧
      (intake_record st now msg).text =
        (if (pyStrip (pyOrStr msg.caption msg.text)).isEmpty then "📷 Фото без описания"
         else pyStrip (pyOrStr msg.caption msg.text)) ∧
      build_keyboard (intake_record st now msg) none none =
        [[⟨"⭐ В избранное", "fav:" ++ freshDocId st⟩,
          ⟨"🏁 В отбор", "sel:" ++ freshDocId st⟩]]) := by
  have hb : (msg.chatId != managerChatId) = true := by simpa using hchat
  refine ⟨?_, ?_, ?_⟩
  · cases msg.photo <;> simp
  · intro hrej
    simp [dispatch_message, hb, handle_new_submission, hrej]
  · intro hacc
    refine ⟨?_, rfl, rfl, rfl, rfl⟩
    simp only [dispatch_message, hb, if_true, handle_new_submission, hacc, Bool.not_true,
      Bool.false_eq_true, if_false, save_submission_to_db]
    rfl

/-- C4 witness: a marker-prefixed text message from a non-manager chat is
stored with both flags false and pushed to the manager without a navigation
row; a plain message is ignored. -/
theorem C4_intake_witness :
    (dispatch_message 999 exStore 10 ⟨55, some "🎄 hi", none, []⟩ =
      ({ docs := exStore.docs ++
           [(freshDocId exStore, intake_record exStore 10 ⟨55, some "🎄 hi", none, []⟩)],
         nextId := exStore.nextId + 1 },
       [send_submission 999 (intake_record exStore 10 ⟨55, some "🎄 hi", none, []⟩)
          none none])) ∧
    dispatch_message 999 exStore 10 ⟨55, some "hi", none, []⟩ = (exStore, []) :=
  ⟨((C4_intake 999 exStore 10 ⟨55, some "🎄 hi", none, []⟩ (by decide)).2.2 rfl).1,
   (C4_intake 999 exStore 10 ⟨55, some "hi", none, []⟩ (by decide)).2.1 rfl⟩

end Telebot
